import Mathlib

/-!
Shallow embedding of the godot-rust binding core: the `Variant` dynamic value,
the `VarDictionary` associative container (with its copy-on-write reference
semantics modelled through an explicit store of dictionary slots), the
dictionary iterator size hints, the relaxed variant-conversion algorithm,
variant equality/ordering via the external evaluate capability, and the
owned-RID RAII wrappers.

Engine-side behaviour (the Godot binary behind the FFI) is modelled explicitly
where the binding delegates to it; such definitions carry a comment naming the
engine primitive they stand for.
-/

set_option autoImplicit false

namespace GodotRust

/-- Runtime type tag of a `Variant` (subset of `VariantType` relevant to the
claims; the enum in the binding mirrors the tag list of the engine). -/
inductive VariantType where
  | NIL
  | BOOL
  | INT
  | FLOAT
  | STRING
  | OBJECT
  | DICTIONARY
  | ARRAY
deriving DecidableEq

/-- Model of `Variant`: a tagged union. Payloads are kept only where claims
inspect them; `object` carries the instance id (0 models a null object
pointer, matching the 4.4 FFI `variant_get_object_instance_id == 0` check). -/
inductive Variant where
  | nil
  | boolean (b : Bool)
  | int (i : Int)
  | string (s : String)
  | object (instanceId : Nat)
deriving DecidableEq

/-- Embeds `Variant::get_type` / `sys_type`: returns the held type tag.
Note a variant holding a null object pointer still reports `OBJECT`. -/
def Variant.getType : Variant → VariantType
  | .nil => .NIL
  | .boolean _ => .BOOL
  | .int _ => .INT
  | .string _ => .STRING
  | .object _ => .OBJECT

/-- Embeds `Variant::is_null_object`: for an `OBJECT`-tagged variant, whether
the stored object pointer / instance id is null. Only invoked by `is_nil`
under the `OBJECT` tag guard (4.4 path: instance id equals 0). -/
def Variant.isNullObject : Variant → Bool
  | .object instanceId => instanceId == 0
  | _ => false

/-- Embeds `Variant::is_nil`: true when the tag is `NIL`, or when the tag is
`OBJECT` and the held object pointer is null; false otherwise. -/
def Variant.isNil (v : Variant) : Bool :=
  if v.getType == .NIL then true
  else if v.getType == .OBJECT then v.isNullObject
  else false

/-- Embeds `Variant::is_null`, the documented alias of `is_nil`. -/
def Variant.isNull (v : Variant) : Bool :=
  v.isNil

-- ---------------------------------------------------------------------------
-- Dictionary data model: entries of one engine-side dictionary slot.

/-- Contents of one engine-side dictionary allocation: the ordered key-value
entries plus the read-only flag set by `make_read_only`. -/
structure DictData where
  entries : List (Variant × Variant)
  readOnly : Bool
deriving DecidableEq

/-- Association-list lookup used to model the engine dictionary: first entry
with the given key. -/
def dataLookup : List (Variant × Variant) → Variant → Option Variant
  | [], _ => none
  | (k, v) :: rest, key => if k = key then some v else dataLookup rest key

/-- Models the engine `has(key)` method. -/
def dataHas (es : List (Variant × Variant)) (key : Variant) : Bool :=
  (dataLookup es key).isSome

/-- Models the engine `get(key, default)` method: value if present, else the
given default. -/
def dataGetOr (es : List (Variant × Variant)) (key : Variant) (dflt : Variant) : Variant :=
  (dataLookup es key).getD dflt

/-- Models the engine upsert (`dict[key] = value` via
`dictionary_operator_index`): replaces the value of the first matching entry
in place, or appends a new entry (preserving insertion order). -/
def dataSet : List (Variant × Variant) → Variant → Variant → List (Variant × Variant)
  | [], key, value => [(key, value)]
  | (k, v) :: rest, key, value =>
    if k = key then (k, value) :: rest else (k, v) :: dataSet rest key value

/-- Models the engine `erase(key)` method: removes the first matching entry. -/
def dataErase : List (Variant × Variant) → Variant → List (Variant × Variant)
  | [], _ => []
  | (k, v) :: rest, key =>
    if k = key then rest else (k, v) :: dataErase rest key

/-- Models the engine `merge(other, overwrite)` method: copies entries of the
source into the destination; with `overwrite = false`, pre-existing keys are
preserved. -/
def dataMerge (dst src : List (Variant × Variant)) (overwrite : Bool) :
    List (Variant × Variant) :=
  src.foldl
    (fun acc kv =>
      if overwrite || !dataHas acc kv.1 then dataSet acc kv.1 kv.2 else acc)
    dst

-- ---------------------------------------------------------------------------
-- Store of dictionary slots: models the engine heap, so that the
-- shared-reference semantics of Clone vs. duplicate can be expressed.

/-- The engine heap of dictionary allocations, indexed by handle. -/
abbrev Store := List DictData

/-- A local `VarDictionary` value: a handle (reference) into the store.
Cloning copies the handle; duplication allocates a fresh slot. -/
structure DictRef where
  handle : Nat
deriving DecidableEq

/-- Dereference a dictionary handle in the store. -/
def storeGet (s : Store) (r : DictRef) : DictData :=
  s.getD r.handle ⟨[], false⟩

/-- Write back the slot a handle refers to (no-op on dangling handles, which
never arise for claims that assume a valid reference). -/
def storeSet (s : Store) (r : DictRef) (d : DictData) : Store :=
  s.set r.handle d

-- Basic lemmas about the data model.

theorem dataLookup_dataSet_self (es : List (Variant × Variant)) (k v : Variant) :
    dataLookup (dataSet es k v) k = some v := by
  induction es with
  | nil => simp [dataSet, dataLookup]
  | cons hd tl ih =>
    obtain ⟨k0, v0⟩ := hd
    by_cases h : k0 = k
    · simp [dataSet, dataLookup, h]
    · simp [dataSet, dataLookup, h, ih]

theorem dataLookup_dataSet_ne (es : List (Variant × Variant)) (k k2 v : Variant)
    (hne : k2 ≠ k) : dataLookup (dataSet es k v) k2 = dataLookup es k2 := by
  induction es with
  | nil => simp [dataSet, dataLookup, Ne.symm hne]
  | cons hd tl ih =>
    obtain ⟨k0, v0⟩ := hd
    by_cases h : k0 = k
    · subst h
      simp [dataSet, dataLookup, Ne.symm hne]
    · simp [dataSet, dataLookup, h, ih]

theorem storeGet_storeSet_self (s : Store) (r : DictRef) (d : DictData)
    (hr : r.handle < s.length) : storeGet (storeSet s r d) r = d := by
  simp [storeGet, storeSet, List.getD, List.getElem?_set_self hr]

theorem storeGet_storeSet_ne (s : Store) (r r2 : DictRef) (d : DictData)
    (hne : r2.handle ≠ r.handle) : storeGet (storeSet s r d) r2 = storeGet s r2 := by
  simp [storeGet, storeSet, List.getD, List.getElem?_set_ne (fun h => hne h.symm)]

theorem storeGet_append_lt (s : Store) (r : DictRef) (d : DictData)
    (hr : r.handle < s.length) : storeGet (s ++ [d]) r = storeGet s r := by
  simp [storeGet, List.getD, List.getElem?_append_left hr]

-- ---------------------------------------------------------------------------
-- VarDictionary API (embedding of godot-core/src/builtin/collections/dictionary.rs).
-- Panics are modelled as `none`; `checked` models the safeguards-balanced
-- build configuration under which `balanced_assert!` fires.

/-- Embeds `VarDictionary::is_read_only`. -/
def VarDictionary.is_read_only (s : Store) (r : DictRef) : Bool :=
  (storeGet s r).readOnly

/-- Embeds `VarDictionary::balanced_ensure_mutable`: best-effort mutability
check. Under safeguards-balanced builds (`checked = true`) it panics (`none`)
when the dictionary is read-only; in unchecked builds it is a no-op. -/
def VarDictionary.balanced_ensure_mutable (checked : Bool) (s : Store) (r : DictRef) :
    Option Unit :=
  if checked && VarDictionary.is_read_only s r then none else some ()

/-- Models the engine-side upsert reached through `dictionary_operator_index`
plus `move_into_var_ptr` (the body of `set_inner`). The engine rejects writes
to a read-only dictionary (spec: mutation of a read-only container is silently
rejected rather than applied), so the store is unchanged in that case. -/
def engineWrite (s : Store) (r : DictRef) (key value : Variant) : Store :=
  let d := storeGet s r
  if d.readOnly then s else storeSet s r ⟨dataSet d.entries key value, d.readOnly⟩

/-- Models the engine-side `erase` method (same read-only rejection). -/
def engineErase (s : Store) (r : DictRef) (key : Variant) : Store :=
  let d := storeGet s r
  if d.readOnly then s else storeSet s r ⟨dataErase d.entries key, d.readOnly⟩

/-- Models the engine-side `clear` method (same read-only rejection). -/
def engineClear (s : Store) (r : DictRef) : Store :=
  let d := storeGet s r
  if d.readOnly then s else storeSet s r ⟨[], d.readOnly⟩

/-- Models the engine-side `merge` method (same read-only rejection). -/
def engineMerge (s : Store) (r : DictRef) (other : DictRef) (overwrite : Bool) : Store :=
  let d := storeGet s r
  if d.readOnly then s
  else storeSet s r ⟨dataMerge d.entries (storeGet s other).entries overwrite, d.readOnly⟩

/-- Embeds `VarDictionary::contains_key` (engine `has`). -/
def VarDictionary.contains_key (s : Store) (r : DictRef) (key : Variant) : Bool :=
  dataHas (storeGet s r).entries key

/-- Embeds `VarDictionary::get_or_nil` (engine `get(key, nil)`). -/
def VarDictionary.get_or_nil (s : Store) (r : DictRef) (key : Variant) : Variant :=
  dataGetOr (storeGet s r).entries key Variant.nil

/-- Embeds `VarDictionary::get`: `Some` of the stored value (possibly nil) if
the key is present, `None` if absent. -/
def VarDictionary.get (s : Store) (r : DictRef) (key : Variant) : Option Variant :=
  if VarDictionary.contains_key s r key then some (VarDictionary.get_or_nil s r key)
  else none

/-- Embeds `VarDictionary::at` (named `at_key` because `at` is reserved in
Lean): like `get`, but panics — modelled as `none` — when the key is absent.
The source duplicates the body of `get` here to save a clone. -/
def VarDictionary.at_key (s : Store) (r : DictRef) (key : Variant) : Option Variant :=
  if VarDictionary.contains_key s r key then some (VarDictionary.get_or_nil s r key)
  else none

/-- Embeds `VarDictionary::set`: mutability check, then upsert via
`set_inner`. -/
def VarDictionary.set (checked : Bool) (s : Store) (r : DictRef) (key value : Variant) :
    Option Store := do
  let _ ← VarDictionary.balanced_ensure_mutable checked s r
  pure (engineWrite s r key value)

/-- Embeds `VarDictionary::insert`: mutability check, then a non-atomic
get-then-set pair; returns the previous value. The inner `set` call performs
its own mutability check, exactly as in the source. -/
def VarDictionary.insert (checked : Bool) (s : Store) (r : DictRef) (key value : Variant) :
    Option (Store × Option Variant) := do
  let _ ← VarDictionary.balanced_ensure_mutable checked s r
  let oldValue := VarDictionary.get s r key
  let s2 ← VarDictionary.set checked s r key value
  pure (s2, oldValue)

/-- Embeds `VarDictionary::remove`: mutability check, `get`, then engine
`erase`; returns the previous value. -/
def VarDictionary.remove (checked : Bool) (s : Store) (r : DictRef) (key : Variant) :
    Option (Store × Option Variant) := do
  let _ ← VarDictionary.balanced_ensure_mutable checked s r
  let oldValue := VarDictionary.get s r key
  pure (engineErase s r key, oldValue)

/-- Embeds `VarDictionary::clear`. -/
def VarDictionary.clear (checked : Bool) (s : Store) (r : DictRef) : Option Store := do
  let _ ← VarDictionary.balanced_ensure_mutable checked s r
  pure (engineClear s r)

/-- Embeds `VarDictionary::extend_dictionary` (engine `merge`). -/
def VarDictionary.extend_dictionary (checked : Bool) (s : Store) (r other : DictRef)
    (overwrite : Bool) : Option Store := do
  let _ ← VarDictionary.balanced_ensure_mutable checked s r
  pure (engineMerge s r other overwrite)

/-- Models the engine-side `get_or_add` method (Godot 4.3+), the native path
of `get_or_insert`. Modelled from the spec: returns the existing value if the
key is present; otherwise inserts the default (the insertion being rejected by
the engine on a read-only dictionary) and returns the default. -/
def engineGetOrAdd (s : Store) (r : DictRef) (key dflt : Variant) : Store × Variant :=
  match dataLookup (storeGet s r).entries key with
  | some v => (s, v)
  | none => (engineWrite s r key dflt, dflt)

/-- Embeds `VarDictionary::get_or_insert` compiled with `since_api = "4.3"`:
mutability check, then delegate to the native engine `get_or_add`. -/
def VarDictionary.get_or_insert_native (checked : Bool) (s : Store) (r : DictRef)
    (key dflt : Variant) : Option (Store × Variant) := do
  let _ ← VarDictionary.balanced_ensure_mutable checked s r
  pure (engineGetOrAdd s r key dflt)

/-- Embeds `VarDictionary::get_or_insert` compiled with `before_api = "4.3"`:
mutability check, then the check-then-insert polyfill (`get`, and on absence a
`set` that repeats the mutability check, as in the source). -/
def VarDictionary.get_or_insert_polyfill (checked : Bool) (s : Store) (r : DictRef)
    (key dflt : Variant) : Option (Store × Variant) := do
  let _ ← VarDictionary.balanced_ensure_mutable checked s r
  match VarDictionary.get s r key with
  | some existingValue => pure (s, existingValue)
  | none => do
    let s2 ← VarDictionary.set checked s r key dflt
    pure (s2, dflt)

/-- Embeds `VarDictionary::reserve` (Godot 4.3+): mutability check, then an
advisory engine call that never changes the observable entries (it only
affects capacity), followed by re-binding the local handle. -/
def VarDictionary.reserve (checked : Bool) (s : Store) (r : DictRef) (_capacity : Nat) :
    Option Store := do
  let _ ← VarDictionary.balanced_ensure_mutable checked s r
  pure s

/-- Embeds `impl Extend for VarDictionary`: one mutability check, then
`set_inner` (the raw engine write, bypassing further checks) per pair. -/
def VarDictionary.extend (checked : Bool) (s : Store) (r : DictRef)
    (pairs : List (Variant × Variant)) : Option Store := do
  let _ ← VarDictionary.balanced_ensure_mutable checked s r
  pure (pairs.foldl (fun acc kv => engineWrite acc r kv.1 kv.2) s)

/-- Embeds `impl Clone for VarDictionary`: constructs via the engine
`dictionary_construct_copy`, which (per the source documentation) creates a
new reference to the same underlying data — the handle is shared. -/
def VarDictionary.clone (r : DictRef) : DictRef :=
  r

/-- Embeds `VarDictionary::duplicate_shallow` (engine `duplicate(false)`):
allocates a fresh slot holding a top-level copy of the entries. The duplicate
is writable (the read-only flag is not inherited by an engine duplicate). -/
def VarDictionary.duplicate_shallow (s : Store) (r : DictRef) : Store × DictRef :=
  (s ++ [⟨(storeGet s r).entries, false⟩], ⟨s.length⟩)

-- ---------------------------------------------------------------------------
-- Iterator size hints.

/-- Semantics of `usize::saturating_sub` in Rust: the difference clamped to
zero instead of underflowing. -/
def usizeSaturatingSub (a b : Nat) : Nat :=
  if b ≤ a then a - b else 0

/-- Embeds `DictionaryIter::size_hint`, shared by `Iter`, `Keys`, `Values` and
their typed variants: the saturating difference between the current container
length (`dictLen`, re-read live, so it may have shrunk below the consumed
count under external mutation) and `next_idx`, as both lower and upper
bound. -/
def DictionaryIter.size_hint (dictLen nextIdx : Nat) : Nat × Option Nat :=
  let remaining := usizeSaturatingSub dictLen nextIdx
  (remaining, some remaining)

/-- Embeds `IntoIter::size_hint` (textually the same computation on its own
fields). -/
def IntoIter.size_hint (dictLen nextIdx : Nat) : Nat × Option Nat :=
  let remaining := usizeSaturatingSub dictLen nextIdx
  (remaining, some remaining)

-- ---------------------------------------------------------------------------
-- Owned resource handles (embedding of obj/raii.rs and rendering/owned_light.rs).

/-- Opaque resource handle. Modelled from the spec (the `Rid` builtin source
is not part of this tree): a handle is either the default/invalid handle or a
valid engine-issued id. -/
inductive Rid where
  | invalid
  | valid (id : Nat)
deriving DecidableEq

/-- Validity check on a handle: only engine-issued handles are valid, the
default handle is not. -/
def Rid.is_valid : Rid → Bool
  | .invalid => false
  | .valid _ => true

/-- Wrapper shape produced by `impl_owned_rid` for global-singleton-owned
services: holds only the handle. -/
structure OwnedSingletonRid where
  rid : Rid
deriving DecidableEq

/-- Wrapper shape produced by `impl_owned_rid` with the `instance` marker:
holds the handle and (a reference to) the specific service instance that
issued it, modelled by the instance id of that `Gd<Server>`. -/
structure OwnedInstanceRid where
  rid : Rid
  server : Nat
deriving DecidableEq

/-- Hand-written `OwnedLight` wrapper: holds only the handle; release goes
through the `RenderingServer` singleton. -/
structure OwnedLight where
  rid : Rid
deriving DecidableEq

/-- Release calls issued by `Drop for $name` (singleton shape): the free call
to `$server::singleton().free_rid` exactly when the stored handle is valid.
Rust runs `Drop::drop` once per owned value and no other method of the
wrapper issues a free, so this list is the release trace of the whole
lifetime. -/
def OwnedSingletonRid.dropFreeCalls (w : OwnedSingletonRid) : List Rid :=
  if w.rid.is_valid then [w.rid] else []

/-- Release calls issued by `Drop for $name` (instance shape): the free call
goes to the stored service instance. -/
def OwnedInstanceRid.dropFreeCalls (w : OwnedInstanceRid) : List (Nat × Rid) :=
  if w.rid.is_valid then [(w.server, w.rid)] else []

/-- Release calls issued by `Drop for OwnedLight`. -/
def OwnedLight.dropFreeCalls (w : OwnedLight) : List Rid :=
  if w.rid.is_valid then [w.rid] else []

-- ---------------------------------------------------------------------------
-- Variant equality and ordering via the external evaluate capability.

/-- Operator enum passed to the external `variant_evaluate` capability
(subset used by the comparison impls). -/
inductive VariantOperator where
  | EQUAL
  | LESS
  | GREATER
deriving DecidableEq

/-- Signature of `Variant::evaluate`: the external evaluate capability, which
returns `none` when the engine defines no such operator for the operand
types. It is an engine-supplied function, so the comparison embeddings are
parameterized over it. -/
abbrev EvaluateFn := Variant → Variant → VariantOperator → Option Variant

/-- Embeds the strict `to::<bool>()` conversion used on evaluate results: it
panics — modelled as `none` — unless the variant holds a `BOOL`. -/
def Variant.toBoolStrict : Variant → Option Bool
  | .boolean b => some b
  | _ => none

/-- Embeds `evaluate(..).is_some_and(|v| v.to::<bool>())`: an undefined
operator yields `false`; a defined operator yields its boolean result (or a
panic, `none`, if the engine returned a non-boolean). -/
def variantEvalIsTrue (eval : EvaluateFn) (a b : Variant) (op : VariantOperator) :
    Option Bool :=
  match eval a b op with
  | none => some false
  | some v => v.toBoolStrict

/-- Embeds `impl PartialEq for Variant`: equality is the EQUAL operator via
the external evaluate capability; absence of the operator means not-equal. -/
def variantPartialEq (eval : EvaluateFn) (a b : Variant) : Option Bool :=
  variantEvalIsTrue eval a b .EQUAL

/-- Embeds `impl PartialOrd for Variant`: first equality (via `PartialEq`),
then the LESS operator, then the GREATER operator; if none of them evaluates
to true the result is `none` (unordered). The outer `Option` models panics in
the strict boolean conversions. -/
def variantPartialCmp (eval : EvaluateFn) (a b : Variant) : Option (Option Ordering) :=
  match variantPartialEq eval a b with
  | none => none
  | some true => some (some .eq)
  | some false =>
    match variantEvalIsTrue eval a b .LESS with
    | none => none
    | some true => some (some .lt)
    | some false =>
      match variantEvalIsTrue eval a b .GREATER with
      | none => none
      | some true => some (some .gt)
      | some false => some none

-- ---------------------------------------------------------------------------
-- Relaxed conversion (embedding of try_from_variant_relaxed in variant/mod.rs).

/-- Wire type of a host type `T`: either `Variant` itself or a concrete
engine type tag (mirrors `ExtVariantType`). -/
inductive ExtVariantType where
  | variant
  | concrete (t : VariantType)
deriving DecidableEq

/-- Conversion error taxonomy (subset of `ConvertError` kinds relevant
here). `badType` carries the expected and actual type tags plus the offending
value, as attached by `into_error`. -/
inductive ConvError where
  | badType (expected actual : VariantType) (value : Variant)
  | wrongClass (value : Variant)
  | deadObject (value : Variant)
  | lossyNarrowing (value : Variant)
deriving DecidableEq

/-- Embeds `try_from_variant_relaxed`. The external ingredients are
parameters: `strictFromVariant` is the strict conversion path
(`T::engine_try_from_variant`), `canConvertStrict` the external
`variant_can_convert_strict` predicate, and `converterPath` the composition
of the external from-variant constructor for the destination wire type with
the final host-side narrowing (`try_from_ffi` / `engine_try_from_godot`),
which may still fail on a lossy narrowing. -/
def tryFromVariantRelaxed {α : Type} (toType : ExtVariantType)
    (strictFromVariant : Variant → Except ConvError α)
    (canConvertStrict : VariantType → VariantType → Bool)
    (converterPath : Variant → Except ConvError α)
    (v : Variant) : Except ConvError α :=
  match toType with
  | .variant => strictFromVariant v
  | .concrete toTy =>
    if v.getType = toTy then strictFromVariant v
    else if toTy = VariantType.NIL || !canConvertStrict v.getType toTy then
      .error (ConvError.badType toTy v.getType v)
    else converterPath v

/-- The strict conversion path for `T = Variant` itself: by
`impl_godot_as_self!`, the conversion is the identity and infallible. -/
def variantStrictFromVariant (v : Variant) : Except ConvError Variant :=
  .ok v

-- ---------------------------------------------------------------------------
-- Helper lemmas about the dictionary API.

theorem get_eq_dataLookup (s : Store) (r : DictRef) (k : Variant) :
    VarDictionary.get s r k = dataLookup (storeGet s r).entries k := by
  unfold VarDictionary.get VarDictionary.contains_key VarDictionary.get_or_nil dataHas dataGetOr
  cases dataLookup (storeGet s r).entries k <;> simp

theorem at_key_eq_get (s : Store) (r : DictRef) (k : Variant) :
    VarDictionary.at_key s r k = VarDictionary.get s r k :=
  rfl

theorem engineWrite_readOnly (s : Store) (r : DictRef) (k v : Variant)
    (hro : (storeGet s r).readOnly = true) : engineWrite s r k v = s := by
  simp [engineWrite, hro]

theorem engineWrite_mutable (s : Store) (r : DictRef) (k v : Variant)
    (hro : (storeGet s r).readOnly = false) :
    engineWrite s r k v = storeSet s r ⟨dataSet (storeGet s r).entries k v, false⟩ := by
  simp [engineWrite, hro]

theorem storeGet_engineWrite_self (s : Store) (r : DictRef) (k v : Variant)
    (hro : (storeGet s r).readOnly = false) (hr : r.handle < s.length) :
    storeGet (engineWrite s r k v) r = ⟨dataSet (storeGet s r).entries k v, false⟩ := by
  rw [engineWrite_mutable s r k v hro]
  exact storeGet_storeSet_self s r _ hr

theorem length_engineWrite (s : Store) (r : DictRef) (k v : Variant) :
    (engineWrite s r k v).length = s.length := by
  by_cases h : (storeGet s r).readOnly <;> simp [engineWrite, h, storeSet]

theorem get_engineWrite_self (s : Store) (r : DictRef) (k v : Variant)
    (hro : (storeGet s r).readOnly = false) (hr : r.handle < s.length) :
    VarDictionary.get (engineWrite s r k v) r k = some v := by
  rw [get_eq_dataLookup, storeGet_engineWrite_self s r k v hro hr]
  exact dataLookup_dataSet_self _ k v

theorem storeGet_concat_self (s : Store) (d : DictData) :
    storeGet (s ++ [d]) ⟨s.length⟩ = d := by
  simp [storeGet, List.getD]

theorem balanced_ensure_mutable_pass (checked : Bool) (s : Store) (r : DictRef)
    (hro : (storeGet s r).readOnly = false) :
    VarDictionary.balanced_ensure_mutable checked s r = some () := by
  simp [VarDictionary.balanced_ensure_mutable, VarDictionary.is_read_only, hro]

theorem contains_key_false_iff (s : Store) (r : DictRef) (k : Variant) :
    VarDictionary.contains_key s r k = false ↔
      dataLookup (storeGet s r).entries k = none := by
  unfold VarDictionary.contains_key dataHas
  cases dataLookup (storeGet s r).entries k <;> simp

theorem set_mutable (checked : Bool) (s : Store) (r : DictRef) (k v : Variant)
    (hro : (storeGet s r).readOnly = false) :
    VarDictionary.set checked s r k v = some (engineWrite s r k v) := by
  simp [VarDictionary.set, balanced_ensure_mutable_pass checked s r hro]

theorem insert_mutable (checked : Bool) (s : Store) (r : DictRef) (k v : Variant)
    (hro : (storeGet s r).readOnly = false) :
    VarDictionary.insert checked s r k v
      = some (engineWrite s r k v, VarDictionary.get s r k) := by
  simp [VarDictionary.insert, balanced_ensure_mutable_pass checked s r hro,
    set_mutable checked s r k v hro]

theorem foldl_engineWrite_readOnly (pairs : List (Variant × Variant)) (s : Store)
    (r : DictRef) (hro : (storeGet s r).readOnly = true) :
    pairs.foldl (fun acc kv => engineWrite acc r kv.1 kv.2) s = s := by
  induction pairs with
  | nil => rfl
  | cons p ps ih =>
    simp only [List.foldl_cons, engineWrite_readOnly s r p.1 p.2 hro]
    exact ih

-- ---------------------------------------------------------------------------
-- Claim theorems.

/-- C10: a variant whose type tag is OBJECT but whose stored object
pointer/instance id is null satisfies `is_nil()` (and its alias `is_null()`)
even though `get_type()` still reports OBJECT; every other non-NIL-tagged
variant (object with a live id, or non-object) has `is_nil() = false`. Hence
`is_nil()` is not equivalent to `get_type() == NIL`. -/
theorem is_nil_null_object :
    ((Variant.object 0).getType = VariantType.OBJECT) ∧
    (Variant.isNil (Variant.object 0) = true) ∧
    (Variant.isNull (Variant.object 0) = true) ∧
    (∀ id : Nat, id ≠ 0 → Variant.isNil (Variant.object id) = false) ∧
    (∀ v : Variant, v.getType ≠ VariantType.NIL → v.getType ≠ VariantType.OBJECT →
      v.isNil = false) ∧
    (Variant.isNil (Variant.object 0) ≠ ((Variant.object 0).getType == VariantType.NIL)) := by
  refine ⟨rfl, by decide, by decide, ?_, ?_, by decide⟩
  · intro id hid
    simp [Variant.isNil, Variant.getType, Variant.isNullObject, hid]
  · intro v hnil hobj
    cases v <;> simp_all [Variant.isNil, Variant.getType]

/-- Witness for C10: evaluates the conditional parts at the concrete inputs
`object 7` and `int 3`. -/
theorem is_nil_null_object_witness :
    Variant.isNil (Variant.object 7) = false ∧ Variant.isNil (Variant.int 3) = false :=
  ⟨is_nil_null_object.2.2.2.1 7 (by decide),
   is_nil_null_object.2.2.2.2.1 (Variant.int 3) (by decide) (by decide)⟩

/-- C8: comparison is computed through the external evaluate capability. If
the engine defines no EQUAL operator for the pair (evaluate returns `none`),
`a == b` is `false` without error or panic; if additionally neither LESS nor
GREATER evaluates to true, `partial_cmp` completes without panic and returns
`none` (unordered). -/
theorem variant_eq_ord_absent_operator (eval : EvaluateFn) (a b : Variant)
    (heq : eval a b VariantOperator.EQUAL = none) :
    variantPartialEq eval a b = some false ∧
    (variantEvalIsTrue eval a b VariantOperator.LESS = some false →
     variantEvalIsTrue eval a b VariantOperator.GREATER = some false →
     variantPartialCmp eval a b = some none) := by
  have hpe : variantPartialEq eval a b = some false := by
    simp [variantPartialEq, variantEvalIsTrue, heq]
  refine ⟨hpe, ?_⟩
  intro hless hgreater
  simp [variantPartialCmp, hpe, hless, hgreater]

/-- Witness for C8: an evaluate capability defining no operator at all, at
concrete operands. -/
theorem variant_eq_ord_absent_operator_witness :
    variantPartialEq (fun _ _ _ => none) (Variant.int 1) (Variant.boolean true) = some false ∧
    variantPartialCmp (fun _ _ _ => none) (Variant.int 1) (Variant.boolean true) = some none := by
  have h := variant_eq_ord_absent_operator (fun _ _ _ => none)
    (Variant.int 1) (Variant.boolean true) rfl
  exact ⟨h.1, h.2 rfl rfl⟩

/-- C3: the relaxed conversion algorithm. If the requested wire type is
Variant itself the conversion delegates to the strict path and (the strict
path for Variant being the infallible identity) always succeeds; if the held
tag equals the requested concrete wire type it delegates to the strict path;
otherwise a NIL target, or denial by the external can-convert-strictly
predicate, fails with a BadType error carrying the expected and actual tags;
only when the predicate allows is the external converter path (constructor
plus possibly-lossy host narrowing) invoked. -/
theorem try_to_relaxed_algorithm {α : Type} (strict : Variant → Except ConvError α)
    (canConv : VariantType → VariantType → Bool)
    (conv : Variant → Except ConvError α) (convVar : Variant → Except ConvError Variant)
    (v : Variant) (toTy : VariantType) :
    (tryFromVariantRelaxed ExtVariantType.variant strict canConv conv v = strict v) ∧
    (tryFromVariantRelaxed ExtVariantType.variant variantStrictFromVariant canConv convVar v
      = Except.ok v) ∧
    (v.getType = toTy →
      tryFromVariantRelaxed (ExtVariantType.concrete toTy) strict canConv conv v = strict v) ∧
    (v.getType ≠ toTy → (toTy = VariantType.NIL ∨ canConv v.getType toTy = false) →
      tryFromVariantRelaxed (ExtVariantType.concrete toTy) strict canConv conv v
        = Except.error (ConvError.badType toTy v.getType v)) ∧
    (v.getType ≠ toTy → toTy ≠ VariantType.NIL → canConv v.getType toTy = true →
      tryFromVariantRelaxed (ExtVariantType.concrete toTy) strict canConv conv v = conv v) := by
  refine ⟨rfl, rfl, ?_, ?_, ?_⟩
  · intro h
    simp [tryFromVariantRelaxed, h]
  · intro hne hdeny
    rcases hdeny with h | h
    · subst h
      simp [tryFromVariantRelaxed, hne]
    · simp [tryFromVariantRelaxed, hne, h]
  · intro hne hnil hallow
    simp [tryFromVariantRelaxed, hne, hnil, hallow]

/-- Witness for C3: evaluates all five branches at concrete inputs, with a
concrete strict path, predicate and converter path. -/
theorem try_to_relaxed_algorithm_witness :
    (tryFromVariantRelaxed ExtVariantType.variant variantStrictFromVariant
      (fun _ t => t == VariantType.BOOL) variantStrictFromVariant (Variant.int 1)
      = Except.ok (Variant.int 1)) ∧
    (tryFromVariantRelaxed (ExtVariantType.concrete VariantType.INT) variantStrictFromVariant
      (fun _ t => t == VariantType.BOOL) variantStrictFromVariant (Variant.int 1)
      = variantStrictFromVariant (Variant.int 1)) ∧
    (tryFromVariantRelaxed (ExtVariantType.concrete VariantType.STRING) variantStrictFromVariant
      (fun _ t => t == VariantType.BOOL) variantStrictFromVariant (Variant.int 1)
      = Except.error (ConvError.badType VariantType.STRING VariantType.INT (Variant.int 1))) ∧
    (tryFromVariantRelaxed (ExtVariantType.concrete VariantType.BOOL) variantStrictFromVariant
      (fun _ t => t == VariantType.BOOL) variantStrictFromVariant (Variant.int 1)
      = variantStrictFromVariant (Variant.int 1)) := by
  have h := try_to_relaxed_algorithm variantStrictFromVariant
    (fun _ t => t == VariantType.BOOL) variantStrictFromVariant variantStrictFromVariant
    (Variant.int 1) VariantType.INT
  have h2 := try_to_relaxed_algorithm variantStrictFromVariant
    (fun _ t => t == VariantType.BOOL) variantStrictFromVariant variantStrictFromVariant
    (Variant.int 1) VariantType.STRING
  have h3 := try_to_relaxed_algorithm variantStrictFromVariant
    (fun _ t => t == VariantType.BOOL) variantStrictFromVariant variantStrictFromVariant
    (Variant.int 1) VariantType.BOOL
  exact ⟨h.2.1, h.2.2.1 rfl, h2.2.2.2.1 (by decide) (Or.inr (by decide)),
    h3.2.2.2.2 (by decide) (by decide) (by decide)⟩

/-- C7: for every iterator state — including states where external removal
made the consumed count exceed the current container length — `size_hint`
returns the saturating difference between current length and consumed count
(the clamped value of the possibly-negative integer difference, so it never
underflows and, as a total function, never panics), identically for the
shared-cursor iterators and for `IntoIter`. -/
theorem size_hint_saturates (dictLen nextIdx : Nat) :
    ((DictionaryIter.size_hint dictLen nextIdx).1
      = ((dictLen : Int) - (nextIdx : Int)).toNat) ∧
    ((DictionaryIter.size_hint dictLen nextIdx).2
      = some (DictionaryIter.size_hint dictLen nextIdx).1) ∧
    (IntoIter.size_hint dictLen nextIdx = DictionaryIter.size_hint dictLen nextIdx) ∧
    ((DictionaryIter.size_hint dictLen nextIdx).1 ≤ dictLen) := by
  refine ⟨?_, rfl, rfl, ?_⟩
  · simp only [DictionaryIter.size_hint, usizeSaturatingSub]
    split <;> omega
  · simp only [DictionaryIter.size_hint, usizeSaturatingSub]
    split <;> omega

/-- Witness for C7: a degraded state where 3 entries were consumed but the
container shrank to 1 entry mid-iteration. -/
theorem size_hint_saturates_witness :
    (DictionaryIter.size_hint 1 3).1 = ((1 : Int) - (3 : Int)).toNat ∧
    (DictionaryIter.size_hint 1 3).1 = 0 :=
  ⟨(size_hint_saturates 1 3).1, by decide⟩

/-- C2: for each owned-RID wrapper shape (global-singleton-owned and
instance-owned from `impl_owned_rid`, and the hand-written `OwnedLight`), the
release trace of the wrapper lifetime — Rust runs the destructor once, and no
other wrapper operation issues a release — contains at most one free call;
exactly one (to the stored handle, and for the instance shape to the stored
service instance) when the handle is valid at drop time, and none when the
handle is the default/invalid handle. -/
theorem owned_rid_release_once :
    (∀ w : OwnedSingletonRid,
      w.dropFreeCalls.length ≤ 1 ∧
      (w.rid.is_valid = true → w.dropFreeCalls = [w.rid]) ∧
      (w.rid.is_valid = false → w.dropFreeCalls = [])) ∧
    (∀ w : OwnedInstanceRid,
      w.dropFreeCalls.length ≤ 1 ∧
      (w.rid.is_valid = true → w.dropFreeCalls = [(w.server, w.rid)]) ∧
      (w.rid.is_valid = false → w.dropFreeCalls = [])) ∧
    (∀ w : OwnedLight,
      w.dropFreeCalls.length ≤ 1 ∧
      (w.rid.is_valid = true → w.dropFreeCalls = [w.rid]) ∧
      (w.rid.is_valid = false → w.dropFreeCalls = [])) := by
  refine ⟨fun w => ?_, fun w => ?_, fun w => ?_⟩ <;>
    cases h : w.rid.is_valid <;>
      simp [OwnedSingletonRid.dropFreeCalls, OwnedInstanceRid.dropFreeCalls,
        OwnedLight.dropFreeCalls, h]

/-- Witness for C2: a valid handle is freed exactly once; an invalid/default
handle is never freed. -/
theorem owned_rid_release_once_witness :
    OwnedSingletonRid.dropFreeCalls ⟨Rid.valid 5⟩ = [Rid.valid 5] ∧
    OwnedInstanceRid.dropFreeCalls ⟨Rid.valid 5, 2⟩ = [(2, Rid.valid 5)] ∧
    OwnedLight.dropFreeCalls ⟨Rid.invalid⟩ = [] :=
  ⟨(owned_rid_release_once.1 ⟨Rid.valid 5⟩).2.1 rfl,
   (owned_rid_release_once.2.1 ⟨Rid.valid 5, 2⟩).2.1 rfl,
   (owned_rid_release_once.2.2 ⟨Rid.invalid⟩).2.2 rfl⟩

/-- C4: `contains_key` agrees with `get(..).isSome`; on an absent key `get`
returns `None` and `at` panics; on a present key `at` returns the stored
value and `get` returns `Some` of it — in particular, setting a key to nil
makes `get` return `Some nil`, distinct from absence. -/
theorem get_at_contains_consistency (s : Store) (r : DictRef) (k : Variant) :
    (VarDictionary.contains_key s r k = (VarDictionary.get s r k).isSome) ∧
    (VarDictionary.contains_key s r k = false →
      VarDictionary.get s r k = none ∧ VarDictionary.at_key s r k = none) ∧
    (VarDictionary.contains_key s r k = true →
      VarDictionary.at_key s r k = some (VarDictionary.get_or_nil s r k) ∧
      VarDictionary.get s r k = VarDictionary.at_key s r k) ∧
    ((storeGet s r).readOnly = false → r.handle < s.length → ∀ checked : Bool,
      ∃ s2, VarDictionary.set checked s r k Variant.nil = some s2 ∧
        VarDictionary.get s2 r k = some Variant.nil) := by
  refine ⟨?_, ?_, ?_, ?_⟩
  · unfold VarDictionary.get
    cases h : VarDictionary.contains_key s r k <;> simp [h]
  · intro h
    simp [VarDictionary.get, at_key_eq_get, h]
  · intro h
    simp [VarDictionary.get, at_key_eq_get, h]
  · intro hro hr checked
    exact ⟨engineWrite s r k Variant.nil, set_mutable checked s r k Variant.nil hro,
      get_engineWrite_self s r k Variant.nil hro hr⟩

/-- Witness for C4: a one-entry dictionary with key 1, probed at the present
key 1 and the absent key 2, plus a nil-valued write. -/
theorem get_at_contains_consistency_witness :
    (VarDictionary.get [⟨[(Variant.int 1, Variant.int 10)], false⟩] ⟨0⟩ (Variant.int 2) = none ∧
     VarDictionary.at_key [⟨[(Variant.int 1, Variant.int 10)], false⟩] ⟨0⟩ (Variant.int 2)
       = none) ∧
    (VarDictionary.get [⟨[(Variant.int 1, Variant.int 10)], false⟩] ⟨0⟩ (Variant.int 1)
      = VarDictionary.at_key [⟨[(Variant.int 1, Variant.int 10)], false⟩] ⟨0⟩ (Variant.int 1)) ∧
    (∃ s2, VarDictionary.set true [⟨[(Variant.int 1, Variant.int 10)], false⟩] ⟨0⟩
        (Variant.int 3) Variant.nil = some s2 ∧
      VarDictionary.get s2 ⟨0⟩ (Variant.int 3) = some Variant.nil) :=
  ⟨(get_at_contains_consistency [⟨[(Variant.int 1, Variant.int 10)], false⟩] ⟨0⟩
      (Variant.int 2)).2.1 (by decide),
   ((get_at_contains_consistency [⟨[(Variant.int 1, Variant.int 10)], false⟩] ⟨0⟩
      (Variant.int 1)).2.2.1 (by decide)).2,
   (get_at_contains_consistency [⟨[(Variant.int 1, Variant.int 10)], false⟩] ⟨0⟩
      (Variant.int 3)).2.2.2 rfl (by decide) true⟩

/-- C5: `insert` upserts and returns the previous value: after `set(k, v1)`,
`insert(k, v2)` returns `Some v1` and afterwards `at(k) = v2`; on an absent
key it returns `None` and afterwards `at(k) = v2` (the get-then-set pair of
external calls is visible in the embedding of `insert`). -/
theorem insert_returns_previous (checked : Bool) (s : Store) (r : DictRef)
    (k v1 v2 : Variant) (hro : (storeGet s r).readOnly = false)
    (hr : r.handle < s.length) :
    (∃ s1, VarDictionary.set checked s r k v1 = some s1 ∧
      ∃ s2, VarDictionary.insert checked s1 r k v2 = some (s2, some v1) ∧
        VarDictionary.at_key s2 r k = some v2) ∧
    (VarDictionary.get s r k = none →
      ∃ s2, VarDictionary.insert checked s r k v2 = some (s2, none) ∧
        VarDictionary.at_key s2 r k = some v2) := by
  constructor
  · refine ⟨engineWrite s r k v1, set_mutable checked s r k v1 hro, ?_⟩
    have hro1 : (storeGet (engineWrite s r k v1) r).readOnly = false := by
      rw [storeGet_engineWrite_self s r k v1 hro hr]
    have hr1 : r.handle < (engineWrite s r k v1).length := by
      rw [length_engineWrite]; exact hr
    refine ⟨engineWrite (engineWrite s r k v1) r k v2, ?_, ?_⟩
    · rw [insert_mutable checked (engineWrite s r k v1) r k v2 hro1,
        get_engineWrite_self s r k v1 hro hr]
    · rw [at_key_eq_get]
      exact get_engineWrite_self (engineWrite s r k v1) r k v2 hro1 hr1
  · intro hget
    refine ⟨engineWrite s r k v2, ?_, ?_⟩
    · rw [insert_mutable checked s r k v2 hro, hget]
    · rw [at_key_eq_get]
      exact get_engineWrite_self s r k v2 hro hr

/-- Witness for C5: both branches at concrete inputs, starting from an empty
writable dictionary. -/
theorem insert_returns_previous_witness :
    (∃ s1, VarDictionary.set false [⟨[], false⟩] ⟨0⟩ (Variant.int 1) (Variant.int 10)
        = some s1 ∧
      ∃ s2, VarDictionary.insert false s1 ⟨0⟩ (Variant.int 1) (Variant.int 20)
          = some (s2, some (Variant.int 10)) ∧
        VarDictionary.at_key s2 ⟨0⟩ (Variant.int 1) = some (Variant.int 20)) ∧
    (∃ s2, VarDictionary.insert false [⟨[], false⟩] ⟨0⟩ (Variant.int 1) (Variant.int 20)
        = some (s2, none) ∧
      VarDictionary.at_key s2 ⟨0⟩ (Variant.int 1) = some (Variant.int 20)) :=
  ⟨(insert_returns_previous false [⟨[], false⟩] ⟨0⟩ (Variant.int 1) (Variant.int 10)
      (Variant.int 20) rfl (by decide)).1,
   (insert_returns_previous false [⟨[], false⟩] ⟨0⟩ (Variant.int 1) (Variant.int 10)
      (Variant.int 20) rfl (by decide)).2 (by decide)⟩

/-- C6: `get_or_insert` returns the existing value on a present key and
otherwise inserts and returns the default, so a second call with another
default returns the first default and leaves the dictionary unchanged;
moreover the native (engine `get_or_add`, Godot 4.3+) path and the pre-4.3
check-then-insert polyfill return the same value and the same resulting
store on all inputs. -/
theorem get_or_insert_idempotent_paths_agree (checked : Bool) (s : Store) (r : DictRef)
    (k v1 v2 : Variant) (hro : (storeGet s r).readOnly = false)
    (hr : r.handle < s.length) :
    (∀ ex, VarDictionary.get s r k = some ex →
      VarDictionary.get_or_insert_native checked s r k v1 = some (s, ex)) ∧
    (VarDictionary.get s r k = none →
      ∃ s1, VarDictionary.get_or_insert_native checked s r k v1 = some (s1, v1) ∧
        VarDictionary.get s1 r k = some v1 ∧
        VarDictionary.get_or_insert_native checked s1 r k v2 = some (s1, v1)) ∧
    (∀ (checked2 : Bool) (s2 : Store) (r2 : DictRef) (k2 d2 : Variant),
      VarDictionary.get_or_insert_native checked2 s2 r2 k2 d2
        = VarDictionary.get_or_insert_polyfill checked2 s2 r2 k2 d2) := by
  refine ⟨?_, ?_, ?_⟩
  · intro ex hex
    rw [get_eq_dataLookup] at hex
    simp [VarDictionary.get_or_insert_native, balanced_ensure_mutable_pass checked s r hro,
      engineGetOrAdd, hex]
  · intro hget
    have hl : dataLookup (storeGet s r).entries k = none := by
      rw [← get_eq_dataLookup]; exact hget
    have hro1 : (storeGet (engineWrite s r k v1) r).readOnly = false := by
      rw [storeGet_engineWrite_self s r k v1 hro hr]
    have hg1 : VarDictionary.get (engineWrite s r k v1) r k = some v1 :=
      get_engineWrite_self s r k v1 hro hr
    have hl1 : dataLookup (storeGet (engineWrite s r k v1) r).entries k = some v1 := by
      rw [← get_eq_dataLookup]; exact hg1
    refine ⟨engineWrite s r k v1, ?_, hg1, ?_⟩
    · simp [VarDictionary.get_or_insert_native, balanced_ensure_mutable_pass checked s r hro,
        engineGetOrAdd, hl]
    · simp [VarDictionary.get_or_insert_native,
        balanced_ensure_mutable_pass checked (engineWrite s r k v1) r hro1,
        engineGetOrAdd, hl1]
  · intro checked2 s2 r2 k2 d2
    by_cases hb : checked2 && VarDictionary.is_read_only s2 r2
    · simp [VarDictionary.get_or_insert_native, VarDictionary.get_or_insert_polyfill,
        VarDictionary.balanced_ensure_mutable, hb]
    · cases hl : dataLookup (storeGet s2 r2).entries k2 <;>
        simp [VarDictionary.get_or_insert_native, VarDictionary.get_or_insert_polyfill,
          VarDictionary.balanced_ensure_mutable, VarDictionary.set, hb,
          engineGetOrAdd, get_eq_dataLookup, hl]

/-- Witness for C6: inserting into an empty writable dictionary, then calling
again with a different default; plus the path equivalence at a concrete
input. -/
theorem get_or_insert_idempotent_paths_agree_witness :
    (∃ s1, VarDictionary.get_or_insert_native false [⟨[], false⟩] ⟨0⟩ (Variant.int 1)
        (Variant.int 5) = some (s1, Variant.int 5) ∧
      VarDictionary.get s1 ⟨0⟩ (Variant.int 1) = some (Variant.int 5) ∧
      VarDictionary.get_or_insert_native false s1 ⟨0⟩ (Variant.int 1) (Variant.int 99)
        = some (s1, Variant.int 5)) ∧
    (VarDictionary.get_or_insert_native true [⟨[], false⟩] ⟨0⟩ (Variant.int 1) (Variant.int 5)
      = VarDictionary.get_or_insert_polyfill true [⟨[], false⟩] ⟨0⟩ (Variant.int 1)
          (Variant.int 5)) :=
  ⟨(get_or_insert_idempotent_paths_agree false [⟨[], false⟩] ⟨0⟩ (Variant.int 1)
      (Variant.int 5) (Variant.int 99) rfl (by decide)).2.1 (by decide),
   (get_or_insert_idempotent_paths_agree false [⟨[], false⟩] ⟨0⟩ (Variant.int 1)
      (Variant.int 5) (Variant.int 99) rfl (by decide)).2.2 true [⟨[], false⟩] ⟨0⟩
      (Variant.int 1) (Variant.int 5)⟩

/-- C1: `clone` yields a new reference to the same underlying data — a `set`
through the clone is visible through the original — whereas
`duplicate_shallow` yields an independent top-level copy: a `set` through the
duplicate (of a key the original does not contain) leaves `get` on the
original unchanged. -/
theorem clone_shares_data_duplicate_independent (checked : Bool) (s : Store) (r : DictRef)
    (k v : Variant) (hro : (storeGet s r).readOnly = false)
    (hr : r.handle < s.length) :
    (∃ s1, VarDictionary.set checked s (VarDictionary.clone r) k v = some s1 ∧
      VarDictionary.get s1 r k = some v) ∧
    (VarDictionary.contains_key s r k = false →
      ∃ s2, VarDictionary.set checked (VarDictionary.duplicate_shallow s r).1
          (VarDictionary.duplicate_shallow s r).2 k v = some s2 ∧
        VarDictionary.get s2 r k = VarDictionary.get s r k ∧
        VarDictionary.get s2 r k = none) := by
  constructor
  · exact ⟨engineWrite s r k v, set_mutable checked s r k v hro,
      get_engineWrite_self s r k v hro hr⟩
  · intro habsent
    have hrod : (storeGet (VarDictionary.duplicate_shallow s r).1
        (VarDictionary.duplicate_shallow s r).2).readOnly = false := by
      rw [VarDictionary.duplicate_shallow, storeGet_concat_self]
    have hset := set_mutable checked (VarDictionary.duplicate_shallow s r).1
      (VarDictionary.duplicate_shallow s r).2 k v hrod
    refine ⟨_, hset, ?_, ?_⟩
    · have hne : r.handle ≠ (VarDictionary.duplicate_shallow s r).2.handle := by
        simp [VarDictionary.duplicate_shallow]
        omega
      rw [get_eq_dataLookup, get_eq_dataLookup,
        engineWrite_mutable _ _ k v hrod,
        storeGet_storeSet_ne _ _ r _ hne,
        VarDictionary.duplicate_shallow, storeGet_append_lt s r _ hr]
    · have hne : r.handle ≠ (VarDictionary.duplicate_shallow s r).2.handle := by
        simp [VarDictionary.duplicate_shallow]
        omega
      rw [get_eq_dataLookup, engineWrite_mutable _ _ k v hrod,
        storeGet_storeSet_ne _ _ r _ hne,
        VarDictionary.duplicate_shallow, storeGet_append_lt s r _ hr]
      exact (contains_key_false_iff s r k).mp habsent

/-- Witness for C1: a one-entry dictionary; writing key 2 through a clone is
seen by the original, writing key 2 through a shallow duplicate is not. -/
theorem clone_shares_data_duplicate_independent_witness :
    (∃ s1, VarDictionary.set true [⟨[(Variant.int 1, Variant.int 10)], false⟩]
        (VarDictionary.clone ⟨0⟩) (Variant.int 2) (Variant.int 20) = some s1 ∧
      VarDictionary.get s1 ⟨0⟩ (Variant.int 2) = some (Variant.int 20)) ∧
    (∃ s2, VarDictionary.set true
        (VarDictionary.duplicate_shallow [⟨[(Variant.int 1, Variant.int 10)], false⟩] ⟨0⟩).1
        (VarDictionary.duplicate_shallow [⟨[(Variant.int 1, Variant.int 10)], false⟩] ⟨0⟩).2
        (Variant.int 2) (Variant.int 20) = some s2 ∧
      VarDictionary.get s2 ⟨0⟩ (Variant.int 2)
        = VarDictionary.get [⟨[(Variant.int 1, Variant.int 10)], false⟩] ⟨0⟩ (Variant.int 2) ∧
      VarDictionary.get s2 ⟨0⟩ (Variant.int 2) = none) :=
  ⟨(clone_shares_data_duplicate_independent true
      [⟨[(Variant.int 1, Variant.int 10)], false⟩] ⟨0⟩ (Variant.int 2) (Variant.int 20)
      rfl (by decide)).1,
   (clone_shares_data_duplicate_independent true
      [⟨[(Variant.int 1, Variant.int 10)], false⟩] ⟨0⟩ (Variant.int 2) (Variant.int 20)
      rfl (by decide)).2 (by decide)⟩

/-- C9: on a read-only dictionary every mutating operation performs the
best-effort mutability check first: under safeguards-checked builds it panics
before mutating; in unchecked builds the check is a no-op and the engine
silently rejects the mutation, leaving the store unchanged. -/
theorem read_only_mutation_best_effort (s : Store) (r other : DictRef)
    (k v dflt : Variant) (overwrite : Bool) (pairs : List (Variant × Variant)) (n : Nat)
    (hro : VarDictionary.is_read_only s r = true) :
    (VarDictionary.set true s r k v = none ∧
     VarDictionary.insert true s r k v = none ∧
     VarDictionary.remove true s r k = none ∧
     VarDictionary.clear true s r = none ∧
     VarDictionary.extend_dictionary true s r other overwrite = none ∧
     VarDictionary.get_or_insert_native true s r k dflt = none ∧
     VarDictionary.get_or_insert_polyfill true s r k dflt = none ∧
     VarDictionary.reserve true s r n = none ∧
     VarDictionary.extend true s r pairs = none) ∧
    (VarDictionary.set false s r k v = some s ∧
     VarDictionary.insert false s r k v = some (s, VarDictionary.get s r k) ∧
     VarDictionary.remove false s r k = some (s, VarDictionary.get s r k) ∧
     VarDictionary.clear false s r = some s ∧
     VarDictionary.extend_dictionary false s r other overwrite = some s ∧
     (VarDictionary.get_or_insert_native false s r k dflt).map Prod.fst = some s ∧
     (VarDictionary.get_or_insert_polyfill false s r k dflt).map Prod.fst = some s ∧
     VarDictionary.reserve false s r n = some s ∧
     VarDictionary.extend false s r pairs = some s) := by
  have hro2 : (storeGet s r).readOnly = true := hro
  constructor
  · refine ⟨?_, ?_, ?_, ?_, ?_, ?_, ?_, ?_, ?_⟩ <;>
      simp [VarDictionary.set, VarDictionary.insert, VarDictionary.remove,
        VarDictionary.clear, VarDictionary.extend_dictionary,
        VarDictionary.get_or_insert_native, VarDictionary.get_or_insert_polyfill,
        VarDictionary.reserve, VarDictionary.extend,
        VarDictionary.balanced_ensure_mutable, hro]
  · have hb : VarDictionary.balanced_ensure_mutable false s r = some () := by
      simp [VarDictionary.balanced_ensure_mutable]
    have hew : ∀ k2 v2, engineWrite s r k2 v2 = s := fun k2 v2 =>
      engineWrite_readOnly s r k2 v2 hro2
    refine ⟨?_, ?_, ?_, ?_, ?_, ?_, ?_, ?_, ?_⟩
    · simp [VarDictionary.set, hb, hew]
    · simp [VarDictionary.insert, VarDictionary.set, hb, hew]
    · simp [VarDictionary.remove, hb, engineErase, hro2]
    · simp [VarDictionary.clear, hb, engineClear, hro2]
    · simp [VarDictionary.extend_dictionary, hb, engineMerge, hro2]
    · cases hl : dataLookup (storeGet s r).entries k <;>
        simp [VarDictionary.get_or_insert_native, hb, engineGetOrAdd, hl, hew]
    · cases hg : VarDictionary.get s r k <;>
        simp [VarDictionary.get_or_insert_polyfill, VarDictionary.set, hb, hg, hew]
    · simp [VarDictionary.reserve, hb]
    · simp [VarDictionary.extend, hb, foldl_engineWrite_readOnly pairs s r hro2]

/-- Witness for C9: a read-only one-entry dictionary; the checked build
panics on `set` and `clear`, the unchecked build leaves the store unchanged. -/
theorem read_only_mutation_best_effort_witness :
    (VarDictionary.set true [⟨[(Variant.int 1, Variant.int 10)], true⟩] ⟨0⟩
      (Variant.int 2) (Variant.int 20) = none ∧
     VarDictionary.clear true [⟨[(Variant.int 1, Variant.int 10)], true⟩] ⟨0⟩ = none) ∧
    (VarDictionary.set false [⟨[(Variant.int 1, Variant.int 10)], true⟩] ⟨0⟩
      (Variant.int 2) (Variant.int 20) = some [⟨[(Variant.int 1, Variant.int 10)], true⟩] ∧
     VarDictionary.extend false [⟨[(Variant.int 1, Variant.int 10)], true⟩] ⟨0⟩
      [(Variant.int 2, Variant.int 20)] = some [⟨[(Variant.int 1, Variant.int 10)], true⟩]) :=
  ⟨⟨(read_only_mutation_best_effort [⟨[(Variant.int 1, Variant.int 10)], true⟩] ⟨0⟩ ⟨0⟩
      (Variant.int 2) (Variant.int 20) Variant.nil true [(Variant.int 2, Variant.int 20)] 4
      rfl).1.1,
    (read_only_mutation_best_effort [⟨[(Variant.int 1, Variant.int 10)], true⟩] ⟨0⟩ ⟨0⟩
      (Variant.int 2) (Variant.int 20) Variant.nil true [(Variant.int 2, Variant.int 20)] 4
      rfl).1.2.2.2.1⟩,
   ⟨(read_only_mutation_best_effort [⟨[(Variant.int 1, Variant.int 10)], true⟩] ⟨0⟩ ⟨0⟩
      (Variant.int 2) (Variant.int 20) Variant.nil true [(Variant.int 2, Variant.int 20)] 4
      rfl).2.1,
    (read_only_mutation_best_effort [⟨[(Variant.int 1, Variant.int 10)], true⟩] ⟨0⟩ ⟨0⟩
      (Variant.int 2) (Variant.int 20) Variant.nil true [(Variant.int 2, Variant.int 20)] 4
      rfl).2.2.2.2.2.2.2.2.2⟩⟩

end GodotRust
